import Mathlib

/-!
Shallow embedding of `medical.py` (MediHelp AI - Trusted Health Info
Assistant), a single-file Streamlit application.  The script reads an API
key from the environment, collects user context (name, age, gender) in a
sidebar, and offers two tabs: a chat tab (symptom query) and a disease-info
tab.  Each non-empty topic triggers one text-generation call and two
image-generation calls (nutrition plate, medicine reference); image
responses are scanned for the first part carrying non-empty inline data,
whose bytes are PNG re-encoded and base64-embedded in the page.

The embedding models the script as pure functions from inputs (API key,
user context, chat input, disease name) and an oracle for the remote
service to a trace of displayed items, issued remote calls, and the updated
conversation history.
-/

namespace MediHelp

/-- Gender selectbox options: `["Male", "Female", "Other"]` (medical.py line 34). -/
inductive Gender
  | male
  | female
  | other
deriving DecidableEq, Repr

def genderStr : Gender → String
  | .male => "Male"
  | .female => "Female"
  | .other => "Other"

/-- UserContext: sidebar fields name, age (0-120), gender (medical.py lines 32-34). -/
structure UserContext where
  name : String
  age : Nat
  gender : Gender
deriving DecidableEq, Repr

/-- Role of a conversation turn (`"user"` / `"assistant"`). -/
inductive Role
  | user
  | assistant
deriving DecidableEq, Repr

/-- ConversationTurn: one `(role, msg)` entry of `st.session_state.chat_history`. -/
structure Turn where
  role : Role
  text : String
deriving DecidableEq, Repr

/-- `part.inline_data`: carries an optional `data` field of raw bytes.
`none` models both an absent `data` attribute and Python `None`; bytes are
modelled as a list of naturals. -/
structure InlineData where
  data : Option (List Nat)
deriving DecidableEq, Repr

/-- One content part of a generation response; `inline_data = none` models a
text-only part (Python `part.inline_data` is `None`). -/
structure Part where
  inline_data : Option InlineData
deriving DecidableEq, Repr

/-- A remote generation call: model identifier and prompt string. -/
structure RemoteCall where
  model : String
  prompt : String
deriving DecidableEq, Repr

/-- Items the script displays; the HTML/CSS wrappers of `st.markdown` are
abstracted to the payload they carry. -/
inductive Display
  | chatMsg (role : Role) (text : String)
  | markdown (text : String)
  | header (text : String)
  | image (b64 : String)
  | warning (text : String)
  | error (text : String)
deriving DecidableEq, Repr

/-- Oracle for the remote service: the outcome of
`client.models.generate_content` for each prompt, for the text model and
for the image model.  `Except.error e` models a raised exception with
message `e`. -/
structure RemoteEnv where
  textResult : String → Except String String
  imageResult : String → Except String (List Part)

/-- The single-quote character, used inside the image prompt f-strings. -/
def sq : String := ⟨[Char.ofNat 39]⟩

def textModel : String := "gemini-2.5-flash-preview-05-20"

def imageModel : String := "gemini-2.0-flash-preview-image-generation"

/-- The chat-tab text prompt f-string (medical.py lines 47-60). -/
def text_prompt (name : String) (age : Nat) (gender : Gender) (user_input : String) : String :=
  "\n        You are a helpful, trustworthy medical assistant AI. Use only verified sources like WHO, Mayo Clinic, and WebMD.\n        Patient Name: "
    ++ name
    ++ "\n        Age: "
    ++ toString age
    ++ "\n        Gender: "
    ++ genderStr gender
    ++ "\n\n        The user asked: "
    ++ user_input
    ++ "\n\n        Provide clear, trustworthy, and actionable information. Include:\n        - Symptoms\n        - Treatments\n        - Medicines\n        - Nutrition suggestions (if applicable)\n        "

/-- The chat-tab nutrition image prompt (medical.py line 83). -/
def nutrition_prompt (age : Nat) (gender : Gender) (user_input : String) : String :=
  "Photorealistic nutrition plate for a person with symptoms or condition described as: "
    ++ sq ++ user_input ++ sq
    ++ ". Age: " ++ toString age
    ++ ", Gender: " ++ genderStr gender
    ++ ". Based on WHO or Mayo Clinic guidance."

/-- The chat-tab medicine image prompt (medical.py line 111). -/
def medicine_prompt (user_input : String) : String :=
  "High-resolution image of common medicines or treatment kits based on symptoms: "
    ++ sq ++ user_input ++ sq
    ++ ", using WHO or Mayo Clinic guidance. White background."

/-- The disease-tab text prompt f-string (medical.py lines 143-153). -/
def disease_prompt (disease_name : String) : String :=
  "\n        You are a trusted medical assistant. Give a comprehensive explanation about the disease: "
    ++ disease_name
    ++ ".\n        Use only WHO, Mayo Clinic, or WebMD as your references.\n\n        Include:\n        - Description of the disease\n        - Common symptoms\n        - Recommended treatments\n        - Suggested medicines (generic if possible)\n        - Nutrition advice if relevant\n        "

/-- The disease-tab nutrition image prompt (medical.py line 166). -/
def disease_nutrition_prompt (age : Nat) (gender : Gender) (disease_name : String) : String :=
  "Photorealistic nutrition plate for a person with " ++ disease_name
    ++ ", based on WHO/Mayo Clinic dietary guidance. Age: " ++ toString age
    ++ ", Gender: " ++ genderStr gender ++ "."

/-- The disease-tab medicine image prompt (medical.py line 192). -/
def disease_medicine_prompt (disease_name : String) : String :=
  "High-resolution image of common medicines or treatment kits for " ++ disease_name
    ++ ", recommended by WHO or Mayo Clinic. White background."

/-- `needle` occurs verbatim (as a contiguous substring) in `haystack`. -/
def strOccurs (needle haystack : String) : Prop :=
  ∃ s t : String, haystack = s ++ needle ++ t

theorem strOccurs_here (s n t : String) : strOccurs n (s ++ n ++ t) :=
  ⟨s, t, rfl⟩

theorem strOccurs_appendRight (n s : String) (h : strOccurs n s) (t : String) :
    strOccurs n (s ++ t) := by
  obtain ⟨a, b, rfl⟩ := h
  exact ⟨a, b ++ t, by simp [String.append_assoc]⟩

theorem strOccurs_appendLeft (n t : String) (h : strOccurs n t) (s : String) :
    strOccurs n (s ++ t) := by
  obtain ⟨a, b, rfl⟩ := h
  exact ⟨s ++ a, b, by simp [String.append_assoc]⟩

/-- The per-part filter of the extraction generator:
`part.inline_data and part.inline_data.data` (medical.py lines 92-95).
An absent envelope, an absent `data` field, and empty bytes are all falsy;
otherwise the yielded value is the bytes themselves. -/
def partImageData (p : Part) : Option (List Nat) :=
  match p.inline_data with
  | none => none
  | some d =>
    match d.data with
    | none => none
    | some bs => if bs = [] then none else some bs

/-- `next((part.inline_data.data for part in ... .content.parts if
part.inline_data and part.inline_data.data), None)`: first part passing
the filter, else `None` (medical.py lines 92-95, 120-123, 174-177, 200-203). -/
def extractImage : List Part → Option (List Nat)
  | [] => none
  | p :: ps =>
    match partImageData p with
    | some bs => some bs
    | none => extractImage ps

/-- One image section of the page (nutrition: medical.py lines 85-107,
medicine: lines 113-135, and the disease-tab copies at lines 167-189 and
193-215).  `codec` models the `Image.open` / PNG re-encode / base64 chain;
a raised exception from the remote call or the codec is caught by the same
`except` clause and rendered with `st.error`. -/
def imageSection (prompt header noImgMsg errLabel : String)
    (env : RemoteEnv) (codec : List Nat → Except String String) :
    List Display × List RemoteCall :=
  let call : RemoteCall := ⟨imageModel, prompt⟩
  match env.imageResult prompt with
  | .error e => ([.error (errLabel ++ e)], [call])
  | .ok parts =>
    match extractImage parts with
    | none => ([.warning noImgMsg], [call])
    | some bs =>
      match codec bs with
      | .error e => ([.error (errLabel ++ e)], [call])
      | .ok b64 => ([.header header, .image b64], [call])

/-- The chat-tab text block (medical.py lines 44-72): on a truthy
`user_input`, append the user turn, build `text_prompt`, issue the text
call, and append either the response text or the error message as the
assistant turn.  Returns the updated history and the issued calls. -/
def runChatText (ctx : UserContext) (history : List Turn) (user_input : String)
    (env : RemoteEnv) : List Turn × List RemoteCall :=
  if user_input = "" then (history, [])
  else
    let h1 := history ++ [⟨.user, user_input⟩]
    let p := text_prompt ctx.name ctx.age ctx.gender user_input
    match env.textResult p with
    | .ok t => (h1 ++ [⟨.assistant, t⟩], [⟨textModel, p⟩])
    | .error e =>
        (h1 ++ [⟨.assistant, "Error generating medical info: " ++ e⟩], [⟨textModel, p⟩])

/-- Everything inside `with tab1:` (medical.py lines 40-135): text block,
history rendering, then the nutrition and medicine image sections, each
guarded by `if user_input:`. -/
def runChatTab (ctx : UserContext) (history : List Turn) (user_input : String)
    (env : RemoteEnv) (codec : List Nat → Except String String) :
    List Turn × List Display × List RemoteCall :=
  let textStep := runChatText ctx history user_input env
  let histDisplays := textStep.1.map fun t => Display.chatMsg t.role t.text
  let nutStep :=
    if user_input = "" then ([], [])
    else imageSection (nutrition_prompt ctx.age ctx.gender user_input)
      "Nutrition Suggestion" "No nutrition image received." "Nutrition image error: " env codec
  let medStep :=
    if user_input = "" then ([], [])
    else imageSection (medicine_prompt user_input)
      "Medicine Reference" "No medicine image received." "Medicine image error: " env codec
  (textStep.1, histDisplays ++ nutStep.1 ++ medStep.1, textStep.2 ++ nutStep.2 ++ medStep.2)

/-- Everything inside `with tab2:` (medical.py lines 138-215): guarded by
`if disease_name:`, the disease text call rendered as markdown (or
`st.error` on failure), then the two image sections. -/
def runDiseaseTab (ctx : UserContext) (disease_name : String)
    (env : RemoteEnv) (codec : List Nat → Except String String) :
    List Display × List RemoteCall :=
  if disease_name = "" then ([], [])
  else
    let p := disease_prompt disease_name
    let textStep : List Display × List RemoteCall :=
      match env.textResult p with
      | .ok t => ([.markdown t], [⟨textModel, p⟩])
      | .error e => ([.error ("Error generating disease info: " ++ e)], [⟨textModel, p⟩])
    let nutStep :=
      imageSection (disease_nutrition_prompt ctx.age ctx.gender disease_name)
        "Nutrition Suggestion" "No nutrition image received." "Nutrition image error: " env codec
    let medStep :=
      imageSection (disease_medicine_prompt disease_name)
        "Medicine Reference" "No medicine image received." "Medicine image error: " env codec
    (textStep.1 ++ nutStep.1 ++ medStep.1, textStep.2 ++ nutStep.2 ++ medStep.2)

/-- Result of one run of the script: what was displayed, which remote calls
were issued, the conversation history after the run, and whether the
startup guard halted the script (`st.stop`). -/
structure ScriptResult where
  displays : List Display
  calls : List RemoteCall
  history : List Turn
  halted : Bool
deriving Repr

/-- One top-to-bottom run of medical.py.  The startup guard (lines 12-15)
reads `GOOGLE_API_KEY`; `if not api_key` is true for an absent variable and
for the empty string, and then `st.error` plus `st.stop` halt the script
before any UI is rendered and before the Gemini client is used. -/
def runScript (apiKey : Option String) (ctx : UserContext) (history : List Turn)
    (user_input disease_name : String)
    (env : RemoteEnv) (codec : List Nat → Except String String) : ScriptResult :=
  match apiKey with
  | none => ⟨[.error "Missing GOOGLE_API_KEY in .env"], [], history, true⟩
  | some k =>
    if k = "" then ⟨[.error "Missing GOOGLE_API_KEY in .env"], [], history, true⟩
    else
      let tab1 := runChatTab ctx history user_input env codec
      let tab2 := runDiseaseTab ctx disease_name env codec
      ⟨tab1.2.1 ++ tab2.1, tab1.2.2 ++ tab2.2, tab1.1, false⟩

/-- The standard base64 alphabet used by `base64.b64encode`. -/
def b64Alphabet : List Char :=
  "ABCDEFGHIJKLMNOPQRSTUVWXYZabcdefghijklmnopqrstuvwxyz0123456789+/".data

/-- Character for a six-bit value (0-63). -/
def b64Char (n : Nat) : Char := b64Alphabet.getD n (Char.ofNat 61)

/-- Six-bit value of an alphabet character, `none` for padding or foreign
characters. -/
def b64Value (c : Char) : Option Nat :=
  if c ∈ b64Alphabet then some (b64Alphabet.indexOf c) else none

/-- The padding character of base64 output. -/
def padChar : Char := Char.ofNat 61

/-- `base64.b64encode` on a byte string: three bytes become four alphabet
characters; a final group of one or two bytes is padded with `=`. -/
def b64EncodeCore : List Nat → List Char
  | b1 :: b2 :: b3 :: rest =>
      b64Char (b1 / 4) :: b64Char (b1 % 4 * 16 + b2 / 16) ::
        b64Char (b2 % 16 * 4 + b3 / 64) :: b64Char (b3 % 64) :: b64EncodeCore rest
  | [b1, b2] => [b64Char (b1 / 4), b64Char (b1 % 4 * 16 + b2 / 16), b64Char (b2 % 16 * 4), padChar]
  | [b1] => [b64Char (b1 / 4), b64Char (b1 % 4 * 16), padChar, padChar]
  | [] => []

/-- `base64.b64encode(...).decode()`: the base64 text of a byte string. -/
def b64Encode (bs : List Nat) : String := ⟨b64EncodeCore bs⟩

/-- `base64.b64decode` on a character list: groups of four characters
decode to three bytes, with `=` padding terminating the input. -/
def b64DecodeCore : List Char → Option (List Nat)
  | [] => some []
  | c1 :: c2 :: c3 :: c4 :: rest =>
    match b64Value c1, b64Value c2 with
    | some s1, some s2 =>
      if c3 = padChar then
        if c4 = padChar ∧ rest = [] then some [s1 * 4 + s2 / 16] else none
      else
        match b64Value c3 with
        | none => none
        | some s3 =>
          if c4 = padChar then
            if rest = [] then some [s1 * 4 + s2 / 16, s2 % 16 * 16 + s3 / 4] else none
          else
            match b64Value c4, b64DecodeCore rest with
            | some s4, some ds =>
                some ((s1 * 4 + s2 / 16) :: (s2 % 16 * 16 + s3 / 4) :: (s3 % 4 * 64 + s4) :: ds)
            | _, _ => none
    | _, _ => none
  | _ => none

/-- Decoding the base64 text back to bytes. -/
def b64Decode (s : String) : Option (List Nat) := b64DecodeCore s.data

/-- `img_str = base64.b64encode(buffered.getvalue()).decode()` (medical.py
line 100): the base64 text of the PNG re-encoded image bytes. -/
def img_str (pngBytes : List Nat) : String := b64Encode pngBytes

theorem b64Value_b64Char : ∀ n, n < 64 → b64Value (b64Char n) = some n := by decide

theorem b64Char_ne_pad : ∀ n, n < 64 → b64Char n ≠ padChar := by decide

theorem b64_roundtrip_core : ∀ bs : List Nat, (∀ b ∈ bs, b < 256) →
    b64DecodeCore (b64EncodeCore bs) = some bs
  | [] => fun _ => rfl
  | [b1] => fun h => by
    have hb1 : b1 < 256 := h b1 (by simp)
    have h1 : b64Value (b64Char (b1 / 4)) = some (b1 / 4) := b64Value_b64Char _ (by omega)
    have h2 : b64Value (b64Char (b1 % 4 * 16)) = some (b1 % 4 * 16) :=
      b64Value_b64Char _ (by omega)
    simp only [b64EncodeCore, b64DecodeCore, h1, h2]
    simp only [if_pos rfl, and_self, if_true, Option.some.injEq, List.cons.injEq, and_true]
    omega
  | [b1, b2] => fun h => by
    have hb1 : b1 < 256 := h b1 (by simp)
    have hb2 : b2 < 256 := h b2 (by simp)
    have h1 : b64Value (b64Char (b1 / 4)) = some (b1 / 4) := b64Value_b64Char _ (by omega)
    have h2 : b64Value (b64Char (b1 % 4 * 16 + b2 / 16)) = some (b1 % 4 * 16 + b2 / 16) :=
      b64Value_b64Char _ (by omega)
    have h3 : b64Value (b64Char (b2 % 16 * 4)) = some (b2 % 16 * 4) :=
      b64Value_b64Char _ (by omega)
    have hne : b64Char (b2 % 16 * 4) ≠ padChar := b64Char_ne_pad _ (by omega)
    simp only [b64EncodeCore, b64DecodeCore, h1, h2, h3, hne, if_false, if_pos rfl,
      if_true, Option.some.injEq, List.cons.injEq, and_true]
    constructor <;> omega
  | b1 :: b2 :: b3 :: rest => fun h => by
    have hb1 : b1 < 256 := h b1 (by simp)
    have hb2 : b2 < 256 := h b2 (by simp)
    have hb3 : b3 < 256 := h b3 (by simp)
    have ih := b64_roundtrip_core rest (fun b hb => h b (by simp [hb]))
    have h1 : b64Value (b64Char (b1 / 4)) = some (b1 / 4) := b64Value_b64Char _ (by omega)
    have h2 : b64Value (b64Char (b1 % 4 * 16 + b2 / 16)) = some (b1 % 4 * 16 + b2 / 16) :=
      b64Value_b64Char _ (by omega)
    have h3 : b64Value (b64Char (b2 % 16 * 4 + b3 / 64)) = some (b2 % 16 * 4 + b3 / 64) :=
      b64Value_b64Char _ (by omega)
    have h4 : b64Value (b64Char (b3 % 64)) = some (b3 % 64) := b64Value_b64Char _ (by omega)
    have hne3 : b64Char (b2 % 16 * 4 + b3 / 64) ≠ padChar := b64Char_ne_pad _ (by omega)
    have hne4 : b64Char (b3 % 64) ≠ padChar := b64Char_ne_pad _ (by omega)
    simp only [b64EncodeCore, b64DecodeCore, h1, h2, h3, h4, hne3, hne4, if_false, ih,
      Option.some.injEq, List.cons.injEq, and_true]
    refine ⟨by omega, by omega, by omega⟩

/-- A remote oracle whose calls all succeed: text answer
`"Rest and hydration"`, image responses with one image-bearing part. -/
def okEnv : RemoteEnv :=
  ⟨fun _ => .ok "Rest and hydration", fun _ => .ok [⟨some ⟨some [1, 2, 3]⟩⟩]⟩

/-- A remote oracle whose text call raises (e.g. quota exhausted) while
image calls succeed. -/
def errTextEnv : RemoteEnv :=
  ⟨fun _ => .error "quota exceeded", fun _ => .ok [⟨some ⟨some [1, 2, 3]⟩⟩]⟩

/-- A codec on which `Image.open` raises for every input. -/
def failCodec : List Nat → Except String String :=
  fun _ => .error "cannot identify image file"

/-- A codec on which decode and PNG re-encode succeed unchanged, followed
by the base64 step of medical.py line 100. -/
def okCodec : List Nat → Except String String :=
  fun bs => .ok (img_str bs)

/-- The trailing literal of the `text_prompt` f-string, holding the four
required content markers. -/
theorem text_prompt_split (name : String) (age : Nat) (gender : Gender) (user_input : String) :
    text_prompt name age gender user_input =
      ("\n        You are a helpful, trustworthy medical assistant AI. Use only verified sources like WHO, Mayo Clinic, and WebMD.\n        Patient Name: "
        ++ name ++ "\n        Age: " ++ toString age ++ "\n        Gender: "
        ++ genderStr gender ++ "\n\n        The user asked: ")
      ++ user_input
      ++ "\n\n        Provide clear, trustworthy, and actionable information. Include:\n        - Symptoms\n        - Treatments\n        - Medicines\n        - Nutrition suggestions (if applicable)\n        " := by
  simp [text_prompt, String.append_assoc]

set_option maxRecDepth 8192 in
/--
C1: for every UserContext (name, age, gender) and every non-empty topic
string, the symptom-query prompt builder `text_prompt` returns a prompt
string that contains the topic verbatim and contains all four required
content markers: Symptoms, Treatments, Medicines, and Nutrition.
-/
theorem C1_prompt_contains_topic_and_markers (ctx : UserContext) (topic : String)
    (_hne : topic ≠ "") :
    strOccurs topic (text_prompt ctx.name ctx.age ctx.gender topic) ∧
    strOccurs "Symptoms" (text_prompt ctx.name ctx.age ctx.gender topic) ∧
    strOccurs "Treatments" (text_prompt ctx.name ctx.age ctx.gender topic) ∧
    strOccurs "Medicines" (text_prompt ctx.name ctx.age ctx.gender topic) ∧
    strOccurs "Nutrition" (text_prompt ctx.name ctx.age ctx.gender topic) := by
  rw [text_prompt_split]
  refine ⟨strOccurs_here _ _ _, ?_, ?_, ?_, ?_⟩ <;>
    refine strOccurs_appendLeft _ _ ?_ _
  · exact ⟨"\n\n        Provide clear, trustworthy, and actionable information. Include:\n        - ",
      "\n        - Treatments\n        - Medicines\n        - Nutrition suggestions (if applicable)\n        ",
      by decide⟩
  · exact ⟨"\n\n        Provide clear, trustworthy, and actionable information. Include:\n        - Symptoms\n        - ",
      "\n        - Medicines\n        - Nutrition suggestions (if applicable)\n        ",
      by decide⟩
  · exact ⟨"\n\n        Provide clear, trustworthy, and actionable information. Include:\n        - Symptoms\n        - Treatments\n        - ",
      "\n        - Nutrition suggestions (if applicable)\n        ",
      by decide⟩
  · exact ⟨"\n\n        Provide clear, trustworthy, and actionable information. Include:\n        - Symptoms\n        - Treatments\n        - Medicines\n        - ",
      " suggestions (if applicable)\n        ",
      by decide⟩

/-- Witness for C1 at topic `"fever"`, age 30, gender Male. -/
theorem C1_prompt_contains_topic_and_markers_witness :
    ("fever" ≠ "") ∧
    (strOccurs "fever" (text_prompt "Alice" 30 Gender.male "fever") ∧
     strOccurs "Symptoms" (text_prompt "Alice" 30 Gender.male "fever") ∧
     strOccurs "Treatments" (text_prompt "Alice" 30 Gender.male "fever") ∧
     strOccurs "Medicines" (text_prompt "Alice" 30 Gender.male "fever") ∧
     strOccurs "Nutrition" (text_prompt "Alice" 30 Gender.male "fever")) :=
  ⟨by decide, C1_prompt_contains_topic_and_markers ⟨"Alice", 30, Gender.male⟩ "fever" (by decide)⟩

/-- A passing part always yields non-empty bytes: the generator filter
requires `part.inline_data.data` to be truthy. -/
theorem partImageData_ne_nil (p : Part) (bs : List Nat)
    (h : partImageData p = some bs) : bs ≠ [] := by
  rcases p with ⟨_ | ⟨_ | data⟩⟩ <;> simp [partImageData] at h
  exact h.2 ▸ h.1

theorem extractImage_of_all_none (parts : List Part)
    (h : ∀ q ∈ parts, partImageData q = none) : extractImage parts = none := by
  induction parts with
  | nil => rfl
  | cons q qs ih =>
    simp only [extractImage, h q (by simp)]
    exact ih fun r hr => h r (by simp [hr])

/--
C2: the extraction step scans the response's content parts in order and
returns the bytes of the first part carrying inline image data; if no part
carries inline image data, it returns `none` (the EmptyResult outcome, an
ordinary value rather than an error).  The `Option` result type makes "at
most one image per request" structural.
-/
theorem C2_extract_first_image_or_empty (parts pre post : List Part) (p : Part)
    (bs : List Nat)
    (hnone : ∀ q ∈ parts, partImageData q = none)
    (hpre : ∀ q ∈ pre, partImageData q = none)
    (hp : partImageData p = some bs) :
    extractImage parts = none ∧ extractImage (pre ++ p :: post) = some bs := by
  refine ⟨extractImage_of_all_none parts hnone, ?_⟩
  induction pre with
  | nil => simp [extractImage, hp]
  | cons q qs ih =>
    simp only [List.cons_append, extractImage, hpre q (by simp)]
    exact ih fun r hr => hpre r (by simp [hr])

/-- Witness for C2: a response of a text-only part and a part with empty
inline bytes yields the empty result; with an image-bearing part present,
the first one's bytes are returned even when a later part also carries
bytes. -/
theorem C2_extract_first_image_or_empty_witness :
    extractImage [⟨none⟩, ⟨some ⟨some []⟩⟩] = none ∧
    extractImage [⟨none⟩, ⟨some ⟨some [7, 9]⟩⟩, ⟨some ⟨some [1]⟩⟩] = some [7, 9] :=
  C2_extract_first_image_or_empty [⟨none⟩, ⟨some ⟨some []⟩⟩] [⟨none⟩]
    [⟨some ⟨some [1]⟩⟩] ⟨some ⟨some [7, 9]⟩⟩ [7, 9]
    (by decide) (by decide) (by decide)

/--
C10 (implicit): a content part whose inline-data envelope is present but
whose data field is empty or absent is not image-bearing, a response of
only such parts yields the empty result, and extraction never returns
empty image bytes.
-/
theorem C10_empty_inline_data_not_image_bearing (d : InlineData)
    (allEmpty parts : List Part) (bs : List Nat)
    (hd : d.data = none ∨ d.data = some [])
    (hparts : ∀ p ∈ allEmpty, ∃ d2 : InlineData,
      p.inline_data = some d2 ∧ (d2.data = none ∨ d2.data = some []))
    (hbs : extractImage parts = some bs) :
    partImageData ⟨some d⟩ = none ∧ extractImage allEmpty = none ∧ bs ≠ [] := by
  have hpart : ∀ d2 : InlineData, d2.data = none ∨ d2.data = some [] →
      partImageData ⟨some d2⟩ = none := by
    rintro ⟨_ | data⟩ h2
    · rfl
    · rcases h2 with h2 | h2
      · simp at h2
      · simp only [Option.some.injEq] at h2
        simp [partImageData, h2]
  refine ⟨hpart d hd, ?_, ?_⟩
  · refine extractImage_of_all_none allEmpty fun q hq => ?_
    obtain ⟨d2, hq2, hd2⟩ := hparts q hq
    have := hpart d2 hd2
    rwa [← hq2] at this
  · induction parts with
    | nil => simp [extractImage] at hbs
    | cons q qs ih =>
      simp only [extractImage] at hbs
      rcases hq : partImageData q with _ | b2
      · rw [hq] at hbs
        exact ih hbs
      · rw [hq] at hbs
        obtain rfl := Option.some.inj hbs
        exact partImageData_ne_nil q _ hq

/-- Witness for C10: a part with an empty-bytes envelope is skipped and a
response of only such parts is the empty result; a successful extraction
yields non-empty bytes. -/
theorem C10_empty_inline_data_not_image_bearing_witness :
    partImageData ⟨some ⟨some []⟩⟩ = none ∧
    extractImage [⟨some ⟨some []⟩⟩, ⟨some ⟨none⟩⟩] = none ∧ [7] ≠ ([] : List Nat) :=
  C10_empty_inline_data_not_image_bearing ⟨some []⟩
    [⟨some ⟨some []⟩⟩, ⟨some ⟨none⟩⟩] [⟨some ⟨some [7]⟩⟩] [7]
    (by decide) (by decide) (by decide)

/-- An image section always issues exactly its one remote call, whatever
the outcome. -/
theorem imageSection_calls (prompt header noImgMsg errLabel : String)
    (env : RemoteEnv) (codec : List Nat → Except String String) :
    (imageSection prompt header noImgMsg errLabel env codec).2 = [⟨imageModel, prompt⟩] := by
  unfold imageSection
  rcases hx : env.imageResult prompt with e | parts
  · simp
  · rcases hy : extractImage parts with _ | bs
    · simp [hy]
    · rcases hz : codec bs with e2 | b <;> simp [hy, hz]

/-- An image section always displays something: an error message, a
"no image received" warning, or the header plus the embedded image. -/
theorem imageSection_displays_ne_nil (prompt header noImgMsg errLabel : String)
    (env : RemoteEnv) (codec : List Nat → Except String String) :
    (imageSection prompt header noImgMsg errLabel env codec).1 ≠ [] := by
  unfold imageSection
  rcases hx : env.imageResult prompt with e | parts
  · simp
  · rcases hy : extractImage parts with _ | bs
    · simp [hy]
    · rcases hz : codec bs with e2 | b <;> simp [hy, hz]

/-- On a non-empty chat input the text block issues exactly the one text
call, whatever its outcome. -/
theorem runChatText_calls (ctx : UserContext) (history : List Turn) (user_input : String)
    (env : RemoteEnv) (h : user_input ≠ "") :
    (runChatText ctx history user_input env).2 =
      [⟨textModel, text_prompt ctx.name ctx.age ctx.gender user_input⟩] := by
  unfold runChatText
  rw [if_neg h]
  rcases hx : env.textResult (text_prompt ctx.name ctx.age ctx.gender user_input) with e | t <;>
    simp [hx]

/-- On a non-empty chat input the text block appends exactly a user turn
and an assistant turn. -/
theorem runChatText_history (ctx : UserContext) (history : List Turn) (user_input : String)
    (env : RemoteEnv) (h : user_input ≠ "") :
    ∃ t, (runChatText ctx history user_input env).1 =
      history ++ [⟨.user, user_input⟩, ⟨.assistant, t⟩] := by
  unfold runChatText
  rw [if_neg h]
  rcases hx : env.textResult (text_prompt ctx.name ctx.age ctx.gender user_input) with e | t
  · exact ⟨"Error generating medical info: " ++ e, by simp [hx]⟩
  · exact ⟨t, by simp [hx]⟩

/-- When the remote call returns parts with an image and the codec raises,
the section shows exactly the `st.error` line for its own label. -/
theorem imageSection_codec_error (prompt header noImgMsg errLabel : String)
    (env : RemoteEnv) (codec : List Nat → Except String String)
    (parts : List Part) (bs : List Nat) (e : String)
    (hok : env.imageResult prompt = .ok parts)
    (hbs : extractImage parts = some bs)
    (hcodec : codec bs = .error e) :
    imageSection prompt header noImgMsg errLabel env codec =
      ([.error (errLabel ++ e)], [⟨imageModel, prompt⟩]) := by
  unfold imageSection
  simp [hok, hbs, hcodec]

/--
C3: an interaction with an empty topic (empty chat input in the
symptom-query tab, or empty disease name in the disease-lookup tab) issues
no remote generation call at all: call count is zero for each tab and for a
whole script run with a valid API key and both topics empty.
-/
theorem C3_empty_topic_no_remote_calls (ctx : UserContext) (history : List Turn)
    (env : RemoteEnv) (codec : List Nat → Except String String)
    (k : String) (hk : k ≠ "") :
    (runChatTab ctx history "" env codec).2.2 = [] ∧
    (runDiseaseTab ctx "" env codec).2 = [] ∧
    (runScript (some k) ctx history "" "" env codec).calls = [] := by
  have h1 : (runChatTab ctx history "" env codec).2.2 = [] := by
    simp [runChatTab, runChatText]
  have h2 : (runDiseaseTab ctx "" env codec).2 = [] := by
    simp [runDiseaseTab]
  refine ⟨h1, h2, ?_⟩
  simp [runScript, hk, h1, h2]

/-- Witness for C3 with a concrete context and a present API key. -/
theorem C3_empty_topic_no_remote_calls_witness :
    (runChatTab ⟨"Alice", 30, Gender.male⟩ [] "" okEnv okCodec).2.2 = [] ∧
    (runDiseaseTab ⟨"Alice", 30, Gender.male⟩ "" okEnv okCodec).2 = [] ∧
    (runScript (some "key") ⟨"Alice", 30, Gender.male⟩ [] "" "" okEnv okCodec).calls = [] :=
  C3_empty_topic_no_remote_calls ⟨"Alice", 30, Gender.male⟩ [] okEnv okCodec "key" (by decide)

/--
C6: the conversation history is append-only: the chat tab and a whole
script run only ever append turns to the end of the incoming history; no
previously stored turn is removed, reordered, or modified.
-/
theorem C6_history_append_only (apiKey : Option String) (ctx : UserContext)
    (history : List Turn) (user_input disease_name : String)
    (env : RemoteEnv) (codec : List Nat → Except String String) :
    (∃ ts, (runChatTab ctx history user_input env codec).1 = history ++ ts) ∧
    (∃ ts, (runScript apiKey ctx history user_input disease_name env codec).history =
      history ++ ts) := by
  have hchat : ∃ ts, (runChatTab ctx history user_input env codec).1 = history ++ ts := by
    by_cases h : user_input = ""
    · subst h
      exact ⟨[], by simp [runChatTab, runChatText]⟩
    · obtain ⟨t, ht⟩ := runChatText_history ctx history user_input env h
      exact ⟨[⟨.user, user_input⟩, ⟨.assistant, t⟩], by simp [runChatTab, ht]⟩
  refine ⟨hchat, ?_⟩
  rcases apiKey with _ | k
  · exact ⟨[], by simp [runScript]⟩
  · by_cases hk : k = ""
    · subst hk
      exact ⟨[], by simp [runScript]⟩
    · obtain ⟨ts, hts⟩ := hchat
      exact ⟨ts, by simp [runScript, hk, hts]⟩

/--
C9: if the API-key credential is absent from the environment (or present
but empty, which `if not api_key` also treats as missing), the script
halts with the single user-visible error message before any UI is
rendered, and no remote generation call is issued in that run.
-/
theorem C9_missing_api_key_halts (apiKey : Option String) (ctx : UserContext)
    (history : List Turn) (user_input disease_name : String)
    (env : RemoteEnv) (codec : List Nat → Except String String)
    (h : apiKey = none ∨ apiKey = some "") :
    runScript apiKey ctx history user_input disease_name env codec =
      ⟨[.error "Missing GOOGLE_API_KEY in .env"], [], history, true⟩ := by
  rcases h with rfl | rfl <;> simp [runScript]

/-- Witness for C9: an absent key halts a run with non-empty topics. -/
theorem C9_missing_api_key_halts_witness :
    runScript none ⟨"Alice", 30, Gender.male⟩ [] "fever" "flu" okEnv okCodec =
      ⟨[.error "Missing GOOGLE_API_KEY in .env"], [], [], true⟩ :=
  C9_missing_api_key_halts none ⟨"Alice", 30, Gender.male⟩ [] "fever" "flu" okEnv okCodec
    (Or.inl rfl)

/--
C4: if the text-generation call fails with an error message `e`, the
assistant turn appended to the conversation history is the inline error
line containing `e` verbatim, and the nutrition-image and medicine-image
calls are still issued regardless of that failure.
-/
theorem C4_text_error_recorded_images_still_called (ctx : UserContext)
    (history : List Turn) (user_input : String) (env : RemoteEnv)
    (codec : List Nat → Except String String) (e : String)
    (hne : user_input ≠ "")
    (herr : env.textResult (text_prompt ctx.name ctx.age ctx.gender user_input) = .error e) :
    (runChatTab ctx history user_input env codec).1 =
      history ++ [⟨.user, user_input⟩,
        ⟨.assistant, "Error generating medical info: " ++ e⟩] ∧
    strOccurs e ("Error generating medical info: " ++ e) ∧
    (runChatTab ctx history user_input env codec).2.2 =
      [⟨textModel, text_prompt ctx.name ctx.age ctx.gender user_input⟩,
       ⟨imageModel, nutrition_prompt ctx.age ctx.gender user_input⟩,
       ⟨imageModel, medicine_prompt user_input⟩] := by
  refine ⟨?_, ⟨"Error generating medical info: ", "", by simp⟩, ?_⟩
  · simp [runChatTab, runChatText, hne, herr]
  · simp [runChatTab, runChatText_calls ctx history user_input env hne, hne,
      imageSection_calls]

/-- Witness for C4: a failing text call with message "quota exceeded". -/
theorem C4_text_error_recorded_images_still_called_witness :
    (runChatTab ⟨"Alice", 30, Gender.male⟩ [] "fever" errTextEnv okCodec).1 =
      [] ++ [⟨.user, "fever"⟩,
        ⟨.assistant, "Error generating medical info: " ++ "quota exceeded"⟩] ∧
    strOccurs "quota exceeded" ("Error generating medical info: " ++ "quota exceeded") ∧
    (runChatTab ⟨"Alice", 30, Gender.male⟩ [] "fever" errTextEnv okCodec).2.2 =
      [⟨textModel, text_prompt "Alice" 30 Gender.male "fever"⟩,
       ⟨imageModel, nutrition_prompt 30 Gender.male "fever"⟩,
       ⟨imageModel, medicine_prompt "fever"⟩] :=
  C4_text_error_recorded_images_still_called ⟨"Alice", 30, Gender.male⟩ [] "fever"
    errTextEnv okCodec "quota exceeded" (by decide) rfl

/--
C5: every remote call and every decode step is independently guarded: on a
non-empty chat input all three remote calls are always issued, the page
decomposes into the history block and the two image sections, each a
function of its own outcome only, each image section always displays
something, and an assistant turn is always displayed, whatever any
individual outcome was.
-/
theorem C5_sections_independently_guarded (ctx : UserContext) (history : List Turn)
    (user_input : String) (env : RemoteEnv) (codec : List Nat → Except String String)
    (hne : user_input ≠ "") :
    (runChatTab ctx history user_input env codec).2.2 =
      [⟨textModel, text_prompt ctx.name ctx.age ctx.gender user_input⟩,
       ⟨imageModel, nutrition_prompt ctx.age ctx.gender user_input⟩,
       ⟨imageModel, medicine_prompt user_input⟩] ∧
    (runChatTab ctx history user_input env codec).2.1 =
      ((runChatText ctx history user_input env).1.map fun t => Display.chatMsg t.role t.text)
        ++ (imageSection (nutrition_prompt ctx.age ctx.gender user_input)
            "Nutrition Suggestion" "No nutrition image received."
            "Nutrition image error: " env codec).1
        ++ (imageSection (medicine_prompt user_input)
            "Medicine Reference" "No medicine image received."
            "Medicine image error: " env codec).1 ∧
    (imageSection (nutrition_prompt ctx.age ctx.gender user_input)
      "Nutrition Suggestion" "No nutrition image received."
      "Nutrition image error: " env codec).1 ≠ [] ∧
    (imageSection (medicine_prompt user_input)
      "Medicine Reference" "No medicine image received."
      "Medicine image error: " env codec).1 ≠ [] ∧
    ∃ t, Display.chatMsg Role.assistant t ∈ (runChatTab ctx history user_input env codec).2.1 := by
  refine ⟨?_, ?_, imageSection_displays_ne_nil _ _ _ _ _ _,
    imageSection_displays_ne_nil _ _ _ _ _ _, ?_⟩
  · simp [runChatTab, runChatText_calls ctx history user_input env hne, hne,
      imageSection_calls]
  · simp [runChatTab, hne]
  · obtain ⟨t, ht⟩ := runChatText_history ctx history user_input env hne
    refine ⟨t, ?_⟩
    simp [runChatTab, hne, ht]

/-- Witness for C5: a fully successful run on topic "fever". -/
theorem C5_sections_independently_guarded_witness :
    (runChatTab ⟨"Alice", 30, Gender.male⟩ [] "fever" okEnv okCodec).2.2 =
      [⟨textModel, text_prompt "Alice" 30 Gender.male "fever"⟩,
       ⟨imageModel, nutrition_prompt 30 Gender.male "fever"⟩,
       ⟨imageModel, medicine_prompt "fever"⟩] ∧
    (runChatTab ⟨"Alice", 30, Gender.male⟩ [] "fever" okEnv okCodec).2.1 =
      ((runChatText ⟨"Alice", 30, Gender.male⟩ [] "fever" okEnv).1.map
          fun t => Display.chatMsg t.role t.text)
        ++ (imageSection (nutrition_prompt 30 Gender.male "fever")
            "Nutrition Suggestion" "No nutrition image received."
            "Nutrition image error: " okEnv okCodec).1
        ++ (imageSection (medicine_prompt "fever")
            "Medicine Reference" "No medicine image received."
            "Medicine image error: " okEnv okCodec).1 ∧
    (imageSection (nutrition_prompt 30 Gender.male "fever")
      "Nutrition Suggestion" "No nutrition image received."
      "Nutrition image error: " okEnv okCodec).1 ≠ [] ∧
    (imageSection (medicine_prompt "fever")
      "Medicine Reference" "No medicine image received."
      "Medicine image error: " okEnv okCodec).1 ≠ [] ∧
    ∃ t, Display.chatMsg Role.assistant t ∈
      (runChatTab ⟨"Alice", 30, Gender.male⟩ [] "fever" okEnv okCodec).2.1 :=
  C5_sections_independently_guarded ⟨"Alice", 30, Gender.male⟩ [] "fever" okEnv okCodec
    (by decide)

/--
C7 counterexample: with undecodable image bytes the caller does not display
a warning: the nutrition section's output is the `st.error` line, and no
`st.warning` item appears in it.
-/
theorem C7_counterexample_error_not_warning :
    (imageSection (nutrition_prompt 30 Gender.male "fever") "Nutrition Suggestion"
        "No nutrition image received." "Nutrition image error: " okEnv failCodec).1 =
      [Display.error "Nutrition image error: cannot identify image file"] ∧
    ∀ s, Display.warning s ∉
      (imageSection (nutrition_prompt 30 Gender.male "fever") "Nutrition Suggestion"
        "No nutrition image received." "Nutrition image error: " okEnv failCodec).1 := by
  have h : (imageSection (nutrition_prompt 30 Gender.male "fever") "Nutrition Suggestion"
      "No nutrition image received." "Nutrition image error: " okEnv failCodec).1 =
      [Display.error "Nutrition image error: cannot identify image file"] := by
    simp [imageSection, okEnv, failCodec, extractImage, partImageData]
  refine ⟨h, fun s hs => ?_⟩
  rw [h] at hs
  simp at hs

/--
C7 (amended): if the raw image bytes cannot be decoded, the raised codec
error is recovered locally: the caller displays an inline error message
(via `st.error`, not a warning) in place of the image, and the remaining
sections of the page are still processed and displayed.
-/
theorem C7_codec_error_recovered (ctx : UserContext) (history : List Turn)
    (user_input : String) (env : RemoteEnv) (codec : List Nat → Except String String)
    (parts : List Part) (bs : List Nat) (e : String)
    (hne : user_input ≠ "")
    (hok : env.imageResult (nutrition_prompt ctx.age ctx.gender user_input) = .ok parts)
    (hbs : extractImage parts = some bs)
    (hcodec : codec bs = .error e) :
    (runChatTab ctx history user_input env codec).2.1 =
      ((runChatText ctx history user_input env).1.map fun t => Display.chatMsg t.role t.text)
        ++ [Display.error ("Nutrition image error: " ++ e)]
        ++ (imageSection (medicine_prompt user_input)
            "Medicine Reference" "No medicine image received."
            "Medicine image error: " env codec).1 ∧
    (imageSection (medicine_prompt user_input)
      "Medicine Reference" "No medicine image received."
      "Medicine image error: " env codec).1 ≠ [] ∧
    (runChatTab ctx history user_input env codec).2.2 =
      [⟨textModel, text_prompt ctx.name ctx.age ctx.gender user_input⟩,
       ⟨imageModel, nutrition_prompt ctx.age ctx.gender user_input⟩,
       ⟨imageModel, medicine_prompt user_input⟩] := by
  have hsec := imageSection_codec_error (nutrition_prompt ctx.age ctx.gender user_input)
    "Nutrition Suggestion" "No nutrition image received." "Nutrition image error: "
    env codec parts bs e hok hbs hcodec
  refine ⟨?_, imageSection_displays_ne_nil _ _ _ _ _ _, ?_⟩
  · simp [runChatTab, hne, hsec]
  · simp [runChatTab, runChatText_calls ctx history user_input env hne, hne,
      imageSection_calls]

/-- Witness for C7 (amended): parts carrying bytes `[1, 2, 3]` and a codec
that raises "cannot identify image file". -/
theorem C7_codec_error_recovered_witness :
    (runChatTab ⟨"Alice", 30, Gender.male⟩ [] "fever" okEnv failCodec).2.1 =
      ((runChatText ⟨"Alice", 30, Gender.male⟩ [] "fever" okEnv).1.map
          fun t => Display.chatMsg t.role t.text)
        ++ [Display.error ("Nutrition image error: " ++ "cannot identify image file")]
        ++ (imageSection (medicine_prompt "fever")
            "Medicine Reference" "No medicine image received."
            "Medicine image error: " okEnv failCodec).1 ∧
    (imageSection (medicine_prompt "fever")
      "Medicine Reference" "No medicine image received."
      "Medicine image error: " okEnv failCodec).1 ≠ [] ∧
    (runChatTab ⟨"Alice", 30, Gender.male⟩ [] "fever" okEnv failCodec).2.2 =
      [⟨textModel, text_prompt "Alice" 30 Gender.male "fever"⟩,
       ⟨imageModel, nutrition_prompt 30 Gender.male "fever"⟩,
       ⟨imageModel, medicine_prompt "fever"⟩] :=
  C7_codec_error_recovered ⟨"Alice", 30, Gender.male⟩ [] "fever" okEnv failCodec
    [⟨some ⟨some [1, 2, 3]⟩⟩] [1, 2, 3] "cannot identify image file"
    (by decide) rfl (by decide) rfl

/--
C8: round-trip: for any byte string of a decodable raster image re-encoded
to PNG, producing the page-embedded base64 text (`img_str`) and then
base64-decoding it reproduces the PNG bytes byte-identically.
-/
theorem C8_codec_base64_roundtrip (pngBytes : List Nat)
    (h : ∀ b ∈ pngBytes, b < 256) :
    b64Decode (img_str pngBytes) = some pngBytes :=
  b64_roundtrip_core pngBytes h

/-- Witness for C8 at the eight-byte PNG signature. -/
theorem C8_codec_base64_roundtrip_witness :
    (∀ b ∈ [137, 80, 78, 71, 13, 10, 26, 10], b < 256) ∧
    b64Decode (img_str [137, 80, 78, 71, 13, 10, 26, 10]) =
      some [137, 80, 78, 71, 13, 10, 26, 10] :=
  ⟨by decide, C8_codec_base64_roundtrip [137, 80, 78, 71, 13, 10, 26, 10] (by decide)⟩

end MediHelp
